import Mathlib

/-!
Shallow embedding of the classroom pursuit simulation
(repository `Classroom-Multiagent`, authoritative sources under `src/src/`:
`position.py`, `enums.py`, `agents/base_agent.py`, `agents/child.py`,
`agents/teacher.py`, `environment/classroom.py`).

Modelling conventions:
* Python `int` coordinates are `ℤ`; wall-clock timestamps (`time.time()`)
  and durations are `ℤ`, threaded explicitly as a `now` parameter (the
  code reads the clock; we pass the reading in, one reading per tick).
  Time enters the code only through order comparisons and constant
  offsets, and every time constant the specification's claims mention
  (capture cooldown 5, spawn interval 3, the 4–10 range) is an integer,
  so an integer time line embeds all the behaviour at issue; the only
  fractional constant in the source, the 0.5–2.0 `move_cooldown` draw,
  appears here as an arbitrary integer field because only its order
  relation to `now - last_move_time` is ever used.
* `Position.distance_to` computes `sqrt(dx² + dy²)` and is only ever used
  as a comparison key in `min`/`max` and in strict `<` comparisons.
  Since `Real.sqrt` is strictly monotone on squares of integers, every
  such comparison agrees with comparing the squared distance `dsq`;
  we therefore use `dsq : ℤ` as the comparison key throughout.
* Python's `min(seq, key=k)` / `max(seq, key=k)` return the FIRST element
  attaining the optimum; `argminKey` / `argmaxKey` reproduce that.
* `random.choice(seq)` picks an arbitrary element; it is modelled by
  `randomChoice r seq` where `r : ℕ` is the draw: every actual run
  corresponds to some `r`, and every index is reachable by some `r`.
* The numpy grid `grid[y][x]` is modelled as a total function
  `ℤ → ℤ → CellType` applied as `grid x y`; only in-bounds cells are
  ever read or written by the embedded operations.
* Fallible Python code (uncaught `AttributeError`, `ValueError`,
  `IndexError`) is modelled with `Except String`.
* `Child` defines `choose_move` twice (child.py lines 26–51 and 138–174);
  in Python the second definition shadows the first, so only the second
  is the behaviour of the class.  We embed the second as
  `Child.choose_move` and the functions reachable only from the first
  (`_execute_strategy`, `_find_wall_hugging_move`, ...) are embedded
  separately as the dead code they are, where a claim needs them.
* `Classroom.__init__` never creates an attribute `teacher`; the driver
  `main.py` assigns `classroom.teacher = teacher` dynamically and
  `Child._find_safest_move` reads it.  The field
  `Classroom.teacher : Option (Option Teacher)` models this: `none`
  means the attribute was never assigned (reading it raises
  `AttributeError`), `some none` means it was assigned Python `None`,
  `some (some t)` means it was assigned a teacher.
-/

namespace Sim

/-- Cell contents, from `src/src/enums.py` (`CellType`). -/
inductive CellType where
  | EMPTY
  | SAFE_ZONE
  | CANDY
  | CHILD
  | TEACHER
deriving DecidableEq, Repr

/-- Agent state, from `src/src/enums.py` (`AgentState`); the enumeration has
the single member `FREE`. -/
inductive AgentState where
  | FREE
deriving DecidableEq, Repr

/-- Movement strategies, from `src/src/enums.py` (`MovementStrategy`). -/
inductive MovementStrategy where
  | RANDOM_WALK
  | CANDY_SEEKER
  | AVOIDANCE
  | DIRECTIONAL_BIAS
  | STRATEGIC_TIMING
  | WALL_HUGGER
  | GROUP_SEEKER
  | CANDY_HOARDER
  | SAFE_EXPLORER
  | UNPREDICTABLE
deriving DecidableEq, Repr

/-- Integer grid position, from `src/src/position.py`; Python `__eq__`
compares coordinates, which is structural equality here. -/
structure Position where
  x : ℤ
  y : ℤ
deriving DecidableEq, Repr

/-- Squared Euclidean distance.  `Position.distance_to` returns
`sqrt (dsq p q)`; all the code's uses of distances are order comparisons,
which agree with comparing `dsq` (strict monotonicity of `sqrt`). -/
def dsq (p q : Position) : ℤ :=
  (p.x - q.x) * (p.x - q.x) + (p.y - q.y) * (p.y - q.y)

/-- Python `min(seq, key=k)`: first element of the list attaining the
minimal key (Python keeps the current best and replaces it only on a
strictly smaller key). -/
def argminKey (k : α → ℤ) : List α → Option α
  | [] => none
  | x :: xs => some (xs.foldl (fun b a => if k a < k b then a else b) x)

/-- Python `max(seq, key=k)`: first element attaining the maximal key.
`max` replaces the current best exactly when the new key is strictly
greater, which is `argminKey` for the negated key. -/
def argmaxKey (k : α → ℤ) (l : List α) : Option α :=
  argminKey (fun a => -(k a)) l

/-- Python `random.choice(seq)` for the draw `r`; `none` on the empty
list (where Python would raise; all call sites guard non-emptiness or
explicitly want `None`). -/
def randomChoice (r : ℕ) (l : List α) : Option α :=
  l[r % l.length]?

/-- Grid update: numpy `grid[y][x] = v` (the grid function is applied as
`g x y`). -/
def setCell (g : ℤ → ℤ → CellType) (x y : ℤ) (v : CellType) : ℤ → ℤ → CellType :=
  fun a b => if a = x ∧ b = y then v else g a b

/-- The four cardinal steps `[(0, 1), (1, 0), (0, -1), (-1, 0)]` used by
both `_get_valid_moves` implementations. -/
def cardinalDirs : List (ℤ × ℤ) := [(0, 1), (1, 0), (0, -1), (-1, 0)]

/-- Child agent, `src/src/agents/child.py` `Child.__init__` plus the
`previous_position` from `base_agent.py`.  The randomized initial values
(`move_cooldown`, `preferred_direction`, `strategy_switch_time`) are
plain fields here; construction draws them. -/
structure Child where
  position : Position
  previous_position : Position
  strategy : MovementStrategy
  state : AgentState
  cooldown_until : ℤ
  last_move_time : ℤ
  move_cooldown : ℤ
  preferred_direction : ℤ × ℤ
  current_substrategy : MovementStrategy
  strategy_switch_time : ℤ
deriving DecidableEq, Repr

/-- `Child.can_move`: `time.time() >= self.cooldown_until`. -/
def Child.can_move (c : Child) (now : ℤ) : Bool :=
  decide (c.cooldown_until ≤ now)

/-- `Child.set_cooldown`: `self.cooldown_until = time.time() + duration`. -/
def Child.set_cooldown (c : Child) (now duration : ℤ) : Child :=
  { c with cooldown_until := now + duration }

/-- `Agent.move` (`base_agent.py`): remember the previous position, then
take the new one. -/
def Child.move (c : Child) (p : Position) : Child :=
  { c with previous_position := c.position, position := p }

/-- Teacher agent, `src/src/agents/teacher.py`.  `Teacher.__init__` takes
only a position; it owns no patrol rectangle (the repository's own tests
construct `Teacher(position, zone)`, which this `__init__` rejects). -/
structure Teacher where
  position : Position
  previous_position : Position
  strategy_priority : List MovementStrategy
deriving DecidableEq, Repr

/-- The fixed priority list assigned in `Teacher.__init__`. -/
def teacherStrategyPriority : List MovementStrategy :=
  [MovementStrategy.AVOIDANCE, MovementStrategy.DIRECTIONAL_BIAS,
   MovementStrategy.CANDY_SEEKER, MovementStrategy.WALL_HUGGER,
   MovementStrategy.GROUP_SEEKER, MovementStrategy.CANDY_HOARDER,
   MovementStrategy.SAFE_EXPLORER, MovementStrategy.STRATEGIC_TIMING,
   MovementStrategy.RANDOM_WALK, MovementStrategy.UNPREDICTABLE]

/-- `Teacher.__init__(position)`. -/
def Teacher.init (p : Position) : Teacher :=
  { position := p, previous_position := p, strategy_priority := teacherStrategyPriority }

/-- `Agent.move` for teachers. -/
def Teacher.move (t : Teacher) (p : Position) : Teacher :=
  { t with previous_position := t.position, position := p }

/-- `Teacher.is_adjacent_to`: both absolute coordinate deltas at most 1
and not both 0 (8-connected adjacency, diagonals included). -/
def Teacher.is_adjacent_to (t : Teacher) (other : Position) : Bool :=
  let dx := (t.position.x - other.x).natAbs
  let dy := (t.position.y - other.y).natAbs
  decide (dx ≤ 1 ∧ dy ≤ 1 ∧ ¬(dx = 0 ∧ dy = 0))

/-- World state, `src/src/environment/classroom.py` `Classroom.__init__`.
See the module docstring for the `teacher` field. -/
structure Classroom where
  width : ℤ
  height : ℤ
  grid : ℤ → ℤ → CellType
  safe_zone : List Position
  children : List Child
  teachers : List Teacher
  teacher : Option (Option Teacher)
  last_candy_spawn : ℤ
  candy_spawn_interval : ℤ

/-- `Classroom.is_position_safe_zone`:
`any(x == sz.x and y == sz.y for sz in self.safe_zone)`; the same
expression is inlined at classroom.py lines 106-108, 121-123 and
156-158. -/
def Classroom.is_position_safe_zone (cls : Classroom) (x y : ℤ) : Bool :=
  cls.safe_zone.any (fun sz => decide (x = sz.x ∧ y = sz.y))

/-- The value a cell reverts to when its occupant leaves:
`CellType.SAFE_ZONE if any(old in safe_zone) else CellType.EMPTY`
(classroom.py lines 106-108, 121-123, 156-158). -/
def vacatedCell (cls : Classroom) (x y : ℤ) : CellType :=
  if cls.is_position_safe_zone x y then CellType.SAFE_ZONE else CellType.EMPTY

/-- Row-major coordinate enumeration `for y in range(height): for x in
range(width)` used by `spawn_candy` and `_find_nearest_candy_move`. -/
def gridCoords (w h : ℤ) : List (ℤ × ℤ) :=
  (List.range h.toNat).flatMap fun y =>
    (List.range w.toNat).map fun x => (Int.ofNat x, Int.ofNat y)

/-- `np.count_nonzero(self.grid == CellType.CANDY)`. -/
def candyCount (cls : Classroom) : ℕ :=
  (gridCoords cls.width cls.height).countP fun xy =>
    decide (cls.grid xy.1 xy.2 = CellType.CANDY)

/-- The `available_positions` comprehension of `spawn_candy`: all empty
cells, in row-major order. -/
def availablePositions (cls : Classroom) : List (ℤ × ℤ) :=
  (gridCoords cls.width cls.height).filter fun xy =>
    decide (cls.grid xy.1 xy.2 = CellType.EMPTY)

/-- The hard-coded candy cap in `spawn_candy` (`if candy_count >= 5`). -/
def maxCandies : ℕ := 5

/-- `Classroom.spawn_candy` (classroom.py lines 61-87): no-op when the
cap is reached or the interval has not elapsed; otherwise place one candy
on a random empty cell and reset the spawn timestamp. -/
def Classroom.spawn_candy (cls : Classroom) (now : ℤ) (r : ℕ) : Classroom :=
  if maxCandies ≤ candyCount cls then cls
  else if now - cls.last_candy_spawn < cls.candy_spawn_interval then cls
  else
    match randomChoice r (availablePositions cls) with
    | none => cls
    | some xy =>
        { cls with grid := setCell cls.grid xy.1 xy.2 CellType.CANDY,
                   last_candy_spawn := now }

/-- `Child._get_valid_moves`: cardinal neighbors inside the grid whose
cell is `EMPTY` or `CANDY`, in direction order. -/
def Child.get_valid_moves (c : Child) (cls : Classroom) : List Position :=
  cardinalDirs.filterMap fun d =>
    let nx := c.position.x + d.1
    let ny := c.position.y + d.2
    if 0 ≤ nx ∧ nx < cls.width ∧ 0 ≤ ny ∧ ny < cls.height ∧
        (cls.grid nx ny = CellType.EMPTY ∨ cls.grid nx ny = CellType.CANDY)
    then some ⟨nx, ny⟩ else none

/-- `Teacher._get_valid_moves`: cardinal neighbors inside the grid whose
cell is `EMPTY`. -/
def Teacher.get_valid_moves (t : Teacher) (cls : Classroom) : List Position :=
  cardinalDirs.filterMap fun d =>
    let nx := t.position.x + d.1
    let ny := t.position.y + d.2
    if 0 ≤ nx ∧ nx < cls.width ∧ 0 ≤ ny ∧ ny < cls.height ∧
        cls.grid nx ny = CellType.EMPTY
    then some ⟨nx, ny⟩ else none

/-- The candy scan of `Child._find_nearest_candy_move`: all candy cells,
row-major. -/
def candyCells (cls : Classroom) : List Position :=
  (gridCoords cls.width cls.height).filterMap fun xy =>
    if cls.grid xy.1 xy.2 = CellType.CANDY then some ⟨xy.1, xy.2⟩ else none

/-- `Child._find_nearest_candy_move` (child.py lines 197-221). -/
def Child.find_nearest_candy_move (c : Child) (cls : Classroom)
    (possible_moves : List Position) (r : ℕ) : Option Position :=
  let candies := candyCells cls
  if candies.isEmpty ∨ possible_moves.isEmpty then
    randomChoice r possible_moves
  else
    match argminKey (fun candy => dsq c.position candy) candies with
    | none => randomChoice r possible_moves
    | some nearest => argminKey (fun pos => dsq pos nearest) possible_moves

/-- `Child._find_safest_move` (child.py lines 223-242).  It reads
`classroom.teacher`, an attribute `Classroom.__init__` never creates
(reading it then raises `AttributeError`); it ignores
`classroom.teachers` entirely. -/
def Child.find_safest_move (_c : Child) (cls : Classroom)
    (possible_moves : List Position) (r : ℕ) : Except String (Option Position) :=
  if possible_moves.isEmpty then Except.ok none
  else
    match cls.teacher with
    | none => Except.error "AttributeError: Classroom has no attribute teacher"
    | some none => Except.ok (randomChoice r possible_moves)
    | some (some t) =>
        Except.ok (argmaxKey (fun pos => dsq pos t.position) possible_moves)

/-- `Child._find_directional_move` (child.py lines 244-265). -/
def Child.find_directional_move (c : Child)
    (possible_moves : List Position) (r : ℕ) : Option Position :=
  let px := c.position.x + c.preferred_direction.1
  let py := c.position.y + c.preferred_direction.2
  match possible_moves.find? (fun m => decide (m.x = px ∧ m.y = py)) with
  | some m => some m
  | none => randomChoice r possible_moves

/-- The `wall_proximity` of the dead `Child._find_wall_hugging_move`
(child.py lines 68-79): `min(x, y, width-1-x, height-1-y)`. -/
def wallProximity (cls : Classroom) (p : Position) : ℤ :=
  min (min p.x p.y) (min (cls.width - 1 - p.x) (cls.height - 1 - p.y))

/-- `Child._find_wall_hugging_move`: `max(moves, key=-wall_proximity)`.
Dead code: the second definition of `choose_move` shadows the dispatch
that called it. -/
def Child.find_wall_hugging_move (cls : Classroom)
    (possible_moves : List Position) : Option Position :=
  argmaxKey (fun pos => -(wallProximity cls pos)) possible_moves

/-- `Child.choose_move`: the SECOND definition (child.py lines 138-174),
which is the one Python keeps.  It dispatches only `CANDY_SEEKER`,
`AVOIDANCE` and `DIRECTIONAL_BIAS`; every other strategy falls into the
`else: random.choice(possible_moves)` branch.  Returns the (possibly
mutated) child together with the chosen destination. -/
def Child.choose_move (c : Child) (cls : Classroom) (now : ℤ) (r : ℕ) :
    Except String (Child × Option Position) :=
  if ¬ (c.can_move now = true) then Except.ok (c, none)
  else if c.strategy = MovementStrategy.STRATEGIC_TIMING ∧
      now - c.last_move_time < c.move_cooldown then Except.ok (c, none)
  else
    let possible_moves := c.get_valid_moves cls
    if possible_moves.isEmpty then Except.ok (c, none)
    else
      let c' := { c with last_move_time := now }
      if c.strategy = MovementStrategy.CANDY_SEEKER then
        Except.ok (c', c.find_nearest_candy_move cls possible_moves r)
      else if c.strategy = MovementStrategy.AVOIDANCE then
        (c.find_safest_move cls possible_moves r).map fun p => (c', p)
      else if c.strategy = MovementStrategy.DIRECTIONAL_BIAS then
        Except.ok (c', c.find_directional_move possible_moves r)
      else
        Except.ok (c', randomChoice r possible_moves)

/-- The candidate filter inside `Teacher._find_nearest_child_move`:
free, of the priority strategy, cooldown expired, and not standing on a
safe-zone cell. -/
def teacherCandidate (cls : Classroom) (now : ℤ) (s : MovementStrategy)
    (c : Child) : Bool :=
  decide (c.state = AgentState.FREE) && decide (c.strategy = s) &&
    c.can_move now &&
    !(cls.safe_zone.any fun sz =>
        decide (sz.x = c.position.x ∧ sz.y = c.position.y))

/-- The per-strategy nearest-child search of
`Teacher._find_nearest_child_move`: the running strict-minimum loop over
`classroom.children` returns the first candidate at minimal distance,
i.e. `argminKey` over the order-preserving filter. -/
def Teacher.nearest_for_strategy (t : Teacher) (cls : Classroom) (now : ℤ)
    (s : MovementStrategy) : Option Child :=
  argminKey (fun c => dsq t.position c.position)
    (cls.children.filter (teacherCandidate cls now s))

/-- The priority walk of `Teacher._find_nearest_child_move`: first
strategy in the priority list with a candidate wins. -/
def Teacher.find_target (t : Teacher) (cls : Classroom) (now : ℤ) :
    List MovementStrategy → Option Child
  | [] => none
  | s :: rest =>
      match t.nearest_for_strategy cls now s with
      | some c => some c
      | none => t.find_target cls now rest

/-- `Teacher.choose_move` / `Teacher._find_nearest_child_move`
(teacher.py lines 53-102): pick a target by priority, return `None` when
there is none or it is already adjacent, else step greedily toward it. -/
def Teacher.choose_move (t : Teacher) (cls : Classroom) (now : ℤ) :
    Option Position :=
  match t.find_target cls now t.strategy_priority with
  | none => none
  | some target =>
      if t.is_adjacent_to target.position then none
      else
        argminKey (fun pos => dsq pos target.position) (t.get_valid_moves cls)

/-- The capture scan of `Classroom._process_teacher_movement` (lines
98-114): the first child in `self.children` with `can_move()` that the
teacher `is_adjacent_to`, split as (prefix, hit, suffix). -/
def captureScan (t : Teacher) (now : ℤ) :
    List Child → Option (List Child × Child × List Child)
  | [] => none
  | c :: rest =>
      if c.can_move now = true ∧ t.is_adjacent_to c.position = true then
        some ([], c, rest)
      else
        match captureScan t now rest with
        | some (pre, hit, post) => some (c :: pre, hit, post)
        | none => none

/-- The capture cooldown `child.set_cooldown(5.0)`
(classroom.py line 113). -/
def captureCooldown : ℤ := 5

/-- `Classroom._process_teacher_movement` (classroom.py lines 89-126):
teleport the first eligible adjacent child to the nearest safe-zone cell
and apply the cooldown (no teacher movement), else move the teacher one
greedy step.  `min` of the empty safe-zone list raises `ValueError`. -/
def Classroom.process_teacher_movement (cls : Classroom) (t : Teacher)
    (now : ℤ) : Except String (Classroom × Teacher) :=
  match captureScan t now cls.children with
  | some (pre, c, post) =>
      match argminKey (fun pos => dsq c.position pos) cls.safe_zone with
      | none => Except.error "ValueError: min() arg is an empty sequence"
      | some nearest_safe =>
          let oldX := c.position.x
          let oldY := c.position.y
          let g1 := setCell cls.grid oldX oldY (vacatedCell cls oldX oldY)
          let c' := { c with position := nearest_safe,
                             cooldown_until := now + captureCooldown }
          let g2 := setCell g1 nearest_safe.x nearest_safe.y CellType.CHILD
          Except.ok ({ cls with grid := g2, children := pre ++ c' :: post }, t)
  | none =>
      match t.choose_move cls now with
      | none => Except.ok (cls, t)
      | some newPos =>
          let oldX := t.position.x
          let oldY := t.position.y
          let g1 := setCell cls.grid oldX oldY (vacatedCell cls oldX oldY)
          let t' := t.move newPos
          let g2 := setCell g1 newPos.x newPos.y CellType.TEACHER
          Except.ok ({ cls with grid := g2 }, t')

/-- Sequential loop in the `Except` monad: run `f` on each element in
order, stopping at the first error (an uncaught Python exception aborts
the tick). -/
def exceptFold (f : σ → β → Except String σ) : σ → List β → Except String σ
  | s, [] => Except.ok s
  | s, b :: l =>
      match f s b with
      | Except.error e => Except.error e
      | Except.ok s' => exceptFold f s' l

/-- One teacher slot of a teacher pass of `Classroom.update`: process the
`i`-th teacher, writing back its mutated state. -/
def teacherStepAt (now : ℤ) (cls : Classroom) (i : ℕ) :
    Except String Classroom :=
  match cls.teachers[i]? with
  | none => Except.ok cls
  | some t =>
      match cls.process_teacher_movement t now with
      | Except.error e => Except.error e
      | Except.ok (cls', t') =>
          Except.ok { cls' with teachers := cls'.teachers.set i t' }

/-- A full teacher pass: `for teacher in self.teachers:
self._process_teacher_movement(teacher)`. -/
def teacherPass (cls : Classroom) (now : ℤ) : Except String Classroom :=
  exceptFold (teacherStepAt now) cls (List.range cls.teachers.length)

/-- The grid/position mutation of the child branch of `Classroom.update`
(lines 150-160): collect candy at the destination, revert the vacated
cell, move the child, occupy the destination. -/
def applyChildMove (cls : Classroom) (i : ℕ) (c : Child) (p : Position) :
    Classroom :=
  let g1 := if cls.grid p.x p.y = CellType.CANDY
            then setCell cls.grid p.x p.y CellType.EMPTY else cls.grid
  let oldX := c.position.x
  let oldY := c.position.y
  let g2 := setCell g1 oldX oldY (vacatedCell cls oldX oldY)
  let c' := c.move p
  let g3 := setCell g2 p.x p.y CellType.CHILD
  { cls with grid := g3, children := cls.children.set i c' }

/-- One child slot of the child pass of `Classroom.update` (lines
146-160). -/
def childStepAt (now : ℤ) (rk : ℕ → ℕ) (cls : Classroom) (i : ℕ) :
    Except String Classroom :=
  match cls.children[i]? with
  | none => Except.ok cls
  | some c =>
      if c.can_move now = true then
        match c.choose_move cls now (rk i) with
        | Except.error e => Except.error e
        | Except.ok (c', mp) =>
            match mp with
            | none => Except.ok { cls with children := cls.children.set i c' }
            | some p =>
                Except.ok
                  (applyChildMove { cls with children := cls.children.set i c' } i c' p)
      else Except.ok cls

/-- The child pass: `for child in self.children: if child.can_move():
...`. -/
def childPass (cls : Classroom) (now : ℤ) (rk : ℕ → ℕ) :
    Except String Classroom :=
  exceptFold (childStepAt now rk) cls (List.range cls.children.length)

/-- `Classroom.update` (classroom.py lines 128-164): candy spawn, teacher
pass, child pass, teacher pass. -/
def Classroom.update (cls : Classroom) (now : ℤ) (rc : ℕ) (rk : ℕ → ℕ) :
    Except String Classroom :=
  match teacherPass (cls.spawn_candy now rc) now with
  | Except.error e => Except.error e
  | Except.ok cls2 =>
      match childPass cls2 now rk with
      | Except.error e => Except.error e
      | Except.ok cls3 => teacherPass cls3 now

/-! ### Helper lemmas about the combinators -/

theorem argminFold_le (k : α → ℤ) :
    ∀ (xs : List α) (b : α),
      k (List.foldl (fun b a => if k a < k b then a else b) b xs) ≤ k b ∧
      ∀ y ∈ xs, k (List.foldl (fun b a => if k a < k b then a else b) b xs) ≤ k y := by
  intro xs
  induction xs with
  | nil => exact fun b => ⟨le_refl _, by simp⟩
  | cons a l ih =>
      intro b
      simp only [List.foldl_cons]
      have hb : k (if k a < k b then a else b) ≤ k b ∧
          k (if k a < k b then a else b) ≤ k a := by
        by_cases h : k a < k b
        · simp [h, le_of_lt h]
        · simp [h, le_of_not_lt h]
      refine ⟨le_trans (ih _).1 hb.1, ?_⟩
      intro y hy
      rcases List.mem_cons.mp hy with hy | hy
      · subst hy; exact le_trans (ih _).1 hb.2
      · exact (ih _).2 y hy

theorem argminFold_mem (k : α → ℤ) :
    ∀ (xs : List α) (b : α),
      List.foldl (fun b a => if k a < k b then a else b) b xs = b ∨
      List.foldl (fun b a => if k a < k b then a else b) b xs ∈ xs := by
  intro xs
  induction xs with
  | nil => exact fun b => Or.inl rfl
  | cons a l ih =>
      intro b
      simp only [List.foldl_cons]
      rcases ih (if k a < k b then a else b) with h | h
      · by_cases hab : k a < k b
        · exact Or.inr (by rw [h, if_pos hab]; exact List.mem_cons_self a l)
        · exact Or.inl (by rw [h, if_neg hab])
      · exact Or.inr (List.mem_cons_of_mem a h)

theorem argminKey_mem {k : α → ℤ} {l : List α} {x : α}
    (h : argminKey k l = some x) : x ∈ l := by
  cases l with
  | nil => simp [argminKey] at h
  | cons a xs =>
      simp only [argminKey, Option.some.injEq] at h
      rcases argminFold_mem k xs a with h' | h'
      · rw [← h, h']; exact List.mem_cons_self a xs
      · rw [← h]; exact List.mem_cons_of_mem a h'

theorem argminKey_le {k : α → ℤ} {l : List α} {x : α}
    (h : argminKey k l = some x) : ∀ y ∈ l, k x ≤ k y := by
  cases l with
  | nil => simp [argminKey] at h
  | cons a xs =>
      simp only [argminKey, Option.some.injEq] at h
      intro y hy
      rcases List.mem_cons.mp hy with hy | hy
      · exact hy ▸ h ▸ (argminFold_le k xs a).1
      · exact h ▸ (argminFold_le k xs a).2 y hy

theorem argminKey_eq_none_iff {k : α → ℤ} {l : List α} :
    argminKey k l = none ↔ l = [] := by
  cases l <;> simp [argminKey]

theorem argmaxKey_mem {k : α → ℤ} {l : List α} {x : α}
    (h : argmaxKey k l = some x) : x ∈ l :=
  argminKey_mem h

theorem argmaxKey_ge {k : α → ℤ} {l : List α} {x : α}
    (h : argmaxKey k l = some x) : ∀ y ∈ l, k y ≤ k x := by
  intro y hy
  have := argminKey_le h y hy
  omega

theorem argmaxKey_eq_none_iff {k : α → ℤ} {l : List α} :
    argmaxKey k l = none ↔ l = [] :=
  argminKey_eq_none_iff

theorem randomChoice_mem {r : ℕ} {l : List α} {x : α}
    (h : randomChoice r l = some x) : x ∈ l := by
  unfold randomChoice at h
  exact List.getElem?_mem h

theorem randomChoice_isSome {r : ℕ} {l : List α} (h : l ≠ []) :
    (randomChoice r l).isSome = true := by
  unfold randomChoice
  have hl : 0 < l.length := List.length_pos.mpr h
  rw [List.getElem?_eq_getElem (Nat.mod_lt r hl)]
  rfl

theorem setCell_same (g : ℤ → ℤ → CellType) (x y : ℤ) (v : CellType) :
    setCell g x y v x y = v := by simp [setCell]

theorem setCell_ne (g : ℤ → ℤ → CellType) (x y : ℤ) (v : CellType)
    (a b : ℤ) (h : ¬(a = x ∧ b = y)) : setCell g x y v a b = g a b := by
  simp [setCell, h]

theorem is_position_safe_zone_iff (cls : Classroom) (x y : ℤ) :
    cls.is_position_safe_zone x y = true ↔ (⟨x, y⟩ : Position) ∈ cls.safe_zone := by
  simp only [Classroom.is_position_safe_zone, List.any_eq_true, decide_eq_true_eq]
  constructor
  · rintro ⟨sz, hm, hx, hy⟩
    have : (⟨x, y⟩ : Position) = sz := by cases sz; simp_all
    exact this ▸ hm
  · intro hm
    exact ⟨⟨x, y⟩, hm, rfl, rfl⟩

/-! ### The safe-zone grid invariant -/

/-- Safe-zone cells never hold `EMPTY` (the spec's invariant) nor `CANDY`
(the inductive strengthening that makes the invariant preserved by
`update`: candy only ever spawns on `EMPTY` cells and is only ever
collected from cells that held `CANDY`). -/
def SafeGridInv (sz : List Position) (g : ℤ → ℤ → CellType) : Prop :=
  ∀ p ∈ sz, g p.x p.y ≠ CellType.EMPTY ∧ g p.x p.y ≠ CellType.CANDY

instance (sz : List Position) (g : ℤ → ℤ → CellType) :
    Decidable (SafeGridInv sz g) := by
  unfold SafeGridInv; infer_instance

/-- The invariant, as a predicate on the world state. -/
def SafeInv (cls : Classroom) : Prop :=
  SafeGridInv cls.safe_zone cls.grid

instance (cls : Classroom) : Decidable (SafeInv cls) := by
  unfold SafeInv; infer_instance

theorem safeGridInv_set_safe {sz : List Position} {g : ℤ → ℤ → CellType}
    (x y : ℤ) {v : CellType} (hv : v ≠ CellType.EMPTY ∧ v ≠ CellType.CANDY)
    (h : SafeGridInv sz g) : SafeGridInv sz (setCell g x y v) := by
  intro p hp
  by_cases hc : p.x = x ∧ p.y = y
  · simpa [setCell, hc] using hv
  · rw [setCell_ne g x y v p.x p.y hc]
    exact h p hp

theorem safeGridInv_set_unsafe {sz : List Position} {g : ℤ → ℤ → CellType}
    {x y : ℤ} (v : CellType) (hx : (⟨x, y⟩ : Position) ∉ sz)
    (h : SafeGridInv sz g) : SafeGridInv sz (setCell g x y v) := by
  intro p hp
  by_cases hc : p.x = x ∧ p.y = y
  · have hpe : p = ⟨x, y⟩ := by cases p; simp_all
    exact absurd (hpe ▸ hp) hx
  · rw [setCell_ne g x y v p.x p.y hc]
    exact h p hp

theorem safeGridInv_set_vacated (cls : Classroom) {g : ℤ → ℤ → CellType}
    (x y : ℤ) (h : SafeGridInv cls.safe_zone g) :
    SafeGridInv cls.safe_zone (setCell g x y (vacatedCell cls x y)) := by
  unfold vacatedCell
  by_cases hs : cls.is_position_safe_zone x y = true
  · rw [if_pos hs]
    exact safeGridInv_set_safe x y ⟨by simp, by simp⟩ h
  · rw [if_neg hs]
    refine safeGridInv_set_unsafe _ ?_ h
    intro hmem
    exact hs ((is_position_safe_zone_iff cls x y).mpr hmem)

theorem safeInv_set_children (cls : Classroom) (l : List Child) :
    SafeInv { cls with children := l } ↔ SafeInv cls := Iff.rfl

theorem spawn_candy_safeInv (cls : Classroom) (now : ℤ) (r : ℕ)
    (h : SafeInv cls) : SafeInv (cls.spawn_candy now r) := by
  unfold Classroom.spawn_candy
  split
  · exact h
  · split
    · exact h
    · split
      · exact h
      · rename_i xy heq
        have hmem := randomChoice_mem heq
        have hempty : cls.grid xy.1 xy.2 = CellType.EMPTY := by
          have h2 := hmem
          unfold availablePositions at h2
          rw [List.mem_filter] at h2
          exact of_decide_eq_true h2.2
        show SafeGridInv cls.safe_zone (setCell cls.grid xy.1 xy.2 CellType.CANDY)
        refine safeGridInv_set_unsafe _ ?_ h
        intro hmemsz
        exact (h ⟨xy.1, xy.2⟩ hmemsz).1 hempty

theorem process_teacher_movement_safeInv {cls : Classroom} {t : Teacher}
    {now : ℤ} {cls' : Classroom} {t' : Teacher} (h : SafeInv cls)
    (he : cls.process_teacher_movement t now = Except.ok (cls', t')) :
    SafeInv cls' := by
  unfold Classroom.process_teacher_movement at he
  split at he
  · -- capture branch
    split at he
    · exact absurd he (by simp)
    · rename_i pre c post hscan nearest hmin
      simp only [Except.ok.injEq, Prod.mk.injEq] at he
      rw [← he.1]
      show SafeGridInv cls.safe_zone _
      refine safeGridInv_set_safe _ _ ⟨by simp, by simp⟩ ?_
      exact safeGridInv_set_vacated cls _ _ h
  · -- movement branch
    split at he
    · simp only [Except.ok.injEq, Prod.mk.injEq] at he
      rw [← he.1]; exact h
    · rename_i hscan newPos hmv
      simp only [Except.ok.injEq, Prod.mk.injEq] at he
      rw [← he.1]
      show SafeGridInv cls.safe_zone _
      refine safeGridInv_set_safe _ _ ⟨by simp, by simp⟩ ?_
      exact safeGridInv_set_vacated cls _ _ h

theorem applyChildMove_safeInv (cls : Classroom) (i : ℕ) (c : Child)
    (p : Position) (h : SafeInv cls) : SafeInv (applyChildMove cls i c p) := by
  unfold applyChildMove
  show SafeGridInv cls.safe_zone _
  refine safeGridInv_set_safe _ _ ⟨by simp, by simp⟩ ?_
  refine safeGridInv_set_vacated cls _ _ ?_
  by_cases hcan : cls.grid p.x p.y = CellType.CANDY
  · rw [if_pos hcan]
    refine safeGridInv_set_unsafe _ ?_ h
    intro hm
    exact (h ⟨p.x, p.y⟩ hm).2 hcan
  · rw [if_neg hcan]; exact h

theorem teacherStepAt_safeInv {now : ℤ} {cls : Classroom} {i : ℕ}
    {cls' : Classroom} (h : SafeInv cls)
    (he : teacherStepAt now cls i = Except.ok cls') : SafeInv cls' := by
  unfold teacherStepAt at he
  split at he
  · cases he; exact h
  · split at he
    · exact absurd he (by simp)
    · rename_i t ht cls2 t2 hp
      cases he
      have hres := process_teacher_movement_safeInv h hp
      exact hres

theorem childStepAt_safeInv {now : ℤ} {rk : ℕ → ℕ} {cls : Classroom}
    {i : ℕ} {cls' : Classroom} (h : SafeInv cls)
    (he : childStepAt now rk cls i = Except.ok cls') : SafeInv cls' := by
  unfold childStepAt at he
  split at he
  · cases he; exact h
  · rename_i c hc
    split at he
    · split at he
      · exact absurd he (by simp)
      · split at he
        · cases he; exact h
        · cases he
          exact applyChildMove_safeInv _ _ _ _ h
    · cases he; exact h

theorem exceptFold_preserve {σ β : Type} (P : σ → Prop)
    (f : σ → β → Except String σ)
    (hf : ∀ s b s', P s → f s b = Except.ok s' → P s') :
    ∀ (l : List β) (s s' : σ), P s → exceptFold f s l = Except.ok s' → P s' := by
  intro l
  induction l with
  | nil => intro s s' hs he; cases he; exact hs
  | cons b l ih =>
      intro s s' hs he
      unfold exceptFold at he
      split at he
      · exact absurd he (by simp)
      · rename_i s1 hfb
        exact ih s1 s' (hf s b s1 hs hfb) he

theorem teacherPass_safeInv {cls cls' : Classroom} {now : ℤ}
    (h : SafeInv cls) (he : teacherPass cls now = Except.ok cls') :
    SafeInv cls' :=
  exceptFold_preserve SafeInv (teacherStepAt now)
    (fun _ _ _ hs hb => teacherStepAt_safeInv hs hb) _ cls cls' h he

theorem childPass_safeInv {cls cls' : Classroom} {now : ℤ} {rk : ℕ → ℕ}
    (h : SafeInv cls) (he : childPass cls now rk = Except.ok cls') :
    SafeInv cls' :=
  exceptFold_preserve SafeInv (childStepAt now rk)
    (fun _ _ _ hs hb => childStepAt_safeInv hs hb) _ cls cls' h he

theorem update_safeInv {cls cls' : Classroom} {now : ℤ} {rc : ℕ}
    {rk : ℕ → ℕ} (h : SafeInv cls)
    (he : cls.update now rc rk = Except.ok cls') : SafeInv cls' := by
  unfold Classroom.update at he
  split at he
  · exact absurd he (by simp)
  · rename_i cls2 h2
    split at he
    · exact absurd he (by simp)
    · rename_i cls3 h3
      have i1 := spawn_candy_safeInv cls now rc h
      have i2 := teacherPass_safeInv i1 h2
      have i3 := childPass_safeInv i2 h3
      exact teacherPass_safeInv i3 he

/-! ### Characterizing the valid-move sets -/

theorem mem_child_get_valid_moves (c : Child) (cls : Classroom) (p : Position) :
    p ∈ c.get_valid_moves cls ↔
      (∃ d ∈ cardinalDirs, p.x = c.position.x + d.1 ∧ p.y = c.position.y + d.2) ∧
      (0 ≤ p.x ∧ p.x < cls.width ∧ 0 ≤ p.y ∧ p.y < cls.height) ∧
      (cls.grid p.x p.y = CellType.EMPTY ∨ cls.grid p.x p.y = CellType.CANDY) := by
  unfold Child.get_valid_moves
  rw [List.mem_filterMap]
  constructor
  · rintro ⟨d, hd, hsome⟩
    dsimp only at hsome
    split at hsome
    · rename_i hcond
      cases hsome
      exact ⟨⟨d, hd, rfl, rfl⟩,
        ⟨hcond.1, hcond.2.1, hcond.2.2.1, hcond.2.2.2.1⟩, hcond.2.2.2.2⟩
    · exact absurd hsome (by simp)
  · rintro ⟨⟨d, hd, hx, hy⟩, hb, hg⟩
    refine ⟨d, hd, ?_⟩
    dsimp only
    rw [← hx, ← hy]
    rw [if_pos ⟨hb.1, hb.2.1, hb.2.2.1, hb.2.2.2, hg⟩]

theorem mem_teacher_get_valid_moves (t : Teacher) (cls : Classroom) (p : Position) :
    p ∈ t.get_valid_moves cls ↔
      (∃ d ∈ cardinalDirs, p.x = t.position.x + d.1 ∧ p.y = t.position.y + d.2) ∧
      (0 ≤ p.x ∧ p.x < cls.width ∧ 0 ≤ p.y ∧ p.y < cls.height) ∧
      cls.grid p.x p.y = CellType.EMPTY := by
  unfold Teacher.get_valid_moves
  rw [List.mem_filterMap]
  constructor
  · rintro ⟨d, hd, hsome⟩
    dsimp only at hsome
    split at hsome
    · rename_i hcond
      cases hsome
      exact ⟨⟨d, hd, rfl, rfl⟩,
        ⟨hcond.1, hcond.2.1, hcond.2.2.1, hcond.2.2.2.1⟩, hcond.2.2.2.2⟩
    · exact absurd hsome (by simp)
  · rintro ⟨⟨d, hd, hx, hy⟩, hb, hg⟩
    refine ⟨d, hd, ?_⟩
    dsimp only
    rw [← hx, ← hy]
    rw [if_pos ⟨hb.1, hb.2.1, hb.2.2.1, hb.2.2.2, hg⟩]

theorem dsq_of_cardinal_step {q p : Position} {d : ℤ × ℤ}
    (hd : d ∈ cardinalDirs) (hx : p.x = q.x + d.1) (hy : p.y = q.y + d.2) :
    dsq q p = 1 := by
  have : dsq q p = d.1 * d.1 + d.2 * d.2 := by
    simp only [dsq, hx, hy]; ring
  rw [this]
  simp only [cardinalDirs, List.mem_cons, List.mem_singleton] at hd
  rcases hd with rfl | rfl | rfl | rfl | h
  · rfl
  · rfl
  · rfl
  · rfl
  · exact absurd h (List.not_mem_nil d)

theorem child_valid_moves_dsq_one (c : Child) (cls : Classroom) :
    ∀ p ∈ c.get_valid_moves cls, dsq c.position p = 1 := by
  intro p hp
  obtain ⟨⟨d, hd, hx, hy⟩, -, -⟩ := (mem_child_get_valid_moves c cls p).mp hp
  exact dsq_of_cardinal_step hd hx hy

theorem teacher_valid_moves_dsq_one (t : Teacher) (cls : Classroom) :
    ∀ p ∈ t.get_valid_moves cls, dsq t.position p = 1 := by
  intro p hp
  obtain ⟨⟨d, hd, hx, hy⟩, -, -⟩ := (mem_teacher_get_valid_moves t cls p).mp hp
  exact dsq_of_cardinal_step hd hx hy

theorem dsq_self (p : Position) : dsq p p = 0 := by simp [dsq]

theorem ne_of_dsq_one {q p : Position} (h : dsq q p = 1) : p ≠ q := by
  intro hpq
  rw [hpq, dsq_self] at h
  exact one_ne_zero h.symm

/-! ### The chosen move always comes from the valid-move list -/

theorem find_nearest_candy_move_mem {c : Child} {cls : Classroom}
    {moves : List Position} {r : ℕ} {p : Position}
    (h : c.find_nearest_candy_move cls moves r = some p) : p ∈ moves := by
  unfold Child.find_nearest_candy_move at h
  dsimp only at h
  split at h
  · exact randomChoice_mem h
  · split at h
    · exact randomChoice_mem h
    · exact argminKey_mem h

theorem find_safest_move_mem {c : Child} {cls : Classroom}
    {moves : List Position} {r : ℕ} {p : Position}
    (h : c.find_safest_move cls moves r = Except.ok (some p)) : p ∈ moves := by
  unfold Child.find_safest_move at h
  split at h
  · exact absurd h (by simp)
  · split at h
    · exact absurd h (by simp)
    · exact randomChoice_mem (Except.ok.inj h)
    · exact argmaxKey_mem (Except.ok.inj h)

theorem find_directional_move_mem {c : Child} {moves : List Position}
    {r : ℕ} {p : Position}
    (h : c.find_directional_move moves r = some p) : p ∈ moves := by
  unfold Child.find_directional_move at h
  dsimp only at h
  split at h
  · rename_i m hf
    cases h
    exact List.mem_of_find?_eq_some hf
  · exact randomChoice_mem h

theorem choose_move_mem {c : Child} {cls : Classroom} {now : ℤ} {r : ℕ}
    {c' : Child} {p : Position}
    (h : c.choose_move cls now r = Except.ok (c', some p)) :
    p ∈ c.get_valid_moves cls := by
  unfold Child.choose_move at h
  split at h
  · simp at h
  · split at h
    · simp at h
    · dsimp only at h
      split at h
      · simp at h
      · split at h
        · rw [Except.ok.injEq, Prod.mk.injEq] at h
          exact find_nearest_candy_move_mem h.2
        · split at h
          · cases hsm : c.find_safest_move cls (c.get_valid_moves cls) r with
            | error e => rw [hsm] at h; simp [Except.map] at h
            | ok mp =>
                rw [hsm] at h
                simp only [Except.map, Except.ok.injEq, Prod.mk.injEq] at h
                exact find_safest_move_mem (by rw [hsm, h.2])
          · split at h
            · rw [Except.ok.injEq, Prod.mk.injEq] at h
              exact find_directional_move_mem h.2
            · rw [Except.ok.injEq, Prod.mk.injEq] at h
              exact randomChoice_mem h.2

theorem teacher_choose_move_mem {t : Teacher} {cls : Classroom} {now : ℤ}
    {p : Position} (h : t.choose_move cls now = some p) :
    p ∈ t.get_valid_moves cls := by
  unfold Teacher.choose_move at h
  split at h
  · exact absurd h (by simp)
  · split at h
    · exact absurd h (by simp)
    · exact argminKey_mem h

/-! ### First-match structure of the capture scan -/

theorem captureScan_eq_some_iff (t : Teacher) (now : ℤ) :
    ∀ (kids pre : List Child) (c : Child) (post : List Child),
      captureScan t now kids = some (pre, c, post) ↔
        kids = pre ++ c :: post ∧
        (∀ k ∈ pre, ¬(k.can_move now = true ∧ t.is_adjacent_to k.position = true)) ∧
        c.can_move now = true ∧ t.is_adjacent_to c.position = true := by
  intro kids
  induction kids with
  | nil =>
      intro pre c post
      simp only [captureScan]
      constructor
      · intro h; exact absurd h (by simp)
      · rintro ⟨h, -⟩
        exact absurd h (by simp)
  | cons a rest ih =>
      intro pre c post
      simp only [captureScan]
      by_cases hpred : a.can_move now = true ∧ t.is_adjacent_to a.position = true
      · rw [if_pos hpred]
        constructor
        · intro h
          cases h
          exact ⟨rfl, by simp, hpred.1, hpred.2⟩
        · rintro ⟨hlist, hpre, hc⟩
          cases pre with
          | nil =>
              simp only [List.nil_append, List.cons.injEq] at hlist
              rw [hlist.1, hlist.2]
          | cons b pre' =>
              simp only [List.cons_append, List.cons.injEq] at hlist
              exact absurd (hlist.1 ▸ hpred) (hpre b (List.mem_cons_self b pre'))
      · rw [if_neg hpred]
        constructor
        · intro h
          cases hs : captureScan t now rest with
          | none => rw [hs] at h; exact absurd h (by simp)
          | some tri =>
              obtain ⟨pr, hit, pos⟩ := tri
              rw [hs] at h
              cases h
              obtain ⟨hlist, hpre, hc⟩ := (ih pr c post).mp hs
              refine ⟨by rw [hlist]; rfl, ?_, hc⟩
              intro k hk
              rcases List.mem_cons.mp hk with rfl | hk
              · exact hpred
              · exact hpre k hk
        · rintro ⟨hlist, hpre, hc⟩
          cases pre with
          | nil =>
              simp only [List.nil_append, List.cons.injEq] at hlist
              exact absurd (hlist.1 ▸ ⟨hc.1, hc.2⟩) hpred
          | cons b pre' =>
              simp only [List.cons_append, List.cons.injEq] at hlist
              have hrec := (ih pre' c post).mpr
                ⟨hlist.2, fun k hk => hpre k (List.mem_cons_of_mem b hk), hc⟩
              rw [hrec]
              rw [hlist.1]

/-! ### Concrete fixtures used by the witnesses and evaluations -/

/-- A 10×10 grid with the 3×3 safe zone at the top-left corner, a teacher
at (5,5) and a child at (5,6) (the layout of the spec's capture
example). -/
def demoGrid : ℤ → ℤ → CellType := fun x y =>
  if 0 ≤ x ∧ x < 3 ∧ 0 ≤ y ∧ y < 3 then CellType.SAFE_ZONE
  else if x = 5 ∧ y = 5 then CellType.TEACHER
  else if x = 5 ∧ y = 6 then CellType.CHILD
  else CellType.EMPTY

/-- The safe-zone position list produced by `_initialize_safe_zone` for
size (3,3): row-major, `Position(x, y)`. -/
def demoSafeZone : List Position :=
  (gridCoords 3 3).map fun xy => ⟨xy.1, xy.2⟩

/-- A concrete eligible child at (5,6). -/
def kidA : Child :=
  { position := ⟨5, 6⟩, previous_position := ⟨5, 6⟩,
    strategy := MovementStrategy.RANDOM_WALK, state := AgentState.FREE,
    cooldown_until := 0, last_move_time := 0, move_cooldown := 1,
    preferred_direction := (0, 1),
    current_substrategy := MovementStrategy.RANDOM_WALK,
    strategy_switch_time := 0 }

/-- A concrete teacher at (5,5). -/
def teachT : Teacher := Teacher.init ⟨5, 5⟩

/-- The demo classroom. -/
def demoCls : Classroom :=
  { width := 10, height := 10, grid := demoGrid, safe_zone := demoSafeZone,
    children := [kidA], teachers := [teachT], teacher := none,
    last_candy_spawn := 0, candy_spawn_interval := 3 }

/-! ### Claim theorems -/

/-- C1: when a teacher processing step finds an eligible (cooldown
expired) child 8-adjacent to the teacher — the first such child in the
children list — that child is teleported to the safe-zone cell nearest
its current position (Euclidean, via the squared distance), the vacated
cell reverts per the safe-zone invariant (the destination, being the
teleport target, holds ChildOccupied), the destination is marked
ChildOccupied, the fixed cooldown `captureCooldown = 5 ∈ [4,10]` is
applied so that `can_move` is false at the capture instant and true
exactly once the cooldown has elapsed, and the teacher is returned
unmoved (no movement is computed in that sub-step). -/
theorem c1_capture_protocol (cls : Classroom) (t : Teacher) (now : ℤ)
    (pre : List Child) (c : Child) (post : List Child) (ns : Position)
    (hscan : captureScan t now cls.children = some (pre, c, post))
    (hmin : argminKey (fun pos => dsq c.position pos) cls.safe_zone = some ns) :
    (cls.process_teacher_movement t now).map
        (fun r => (r.2, r.1.children,
          r.1.grid c.position.x c.position.y, r.1.grid ns.x ns.y)) =
      Except.ok (t,
        pre ++ { c with position := ns, cooldown_until := now + captureCooldown } :: post,
        (if c.position = ns then CellType.CHILD
         else if (⟨c.position.x, c.position.y⟩ : Position) ∈ cls.safe_zone
              then CellType.SAFE_ZONE else CellType.EMPTY),
        CellType.CHILD) ∧
    ns ∈ cls.safe_zone ∧
    (∀ q ∈ cls.safe_zone, dsq c.position ns ≤ dsq c.position q) ∧
    Child.can_move
      { c with position := ns, cooldown_until := now + captureCooldown } now = false ∧
    (∀ s : ℤ, Child.can_move
      { c with position := ns, cooldown_until := now + captureCooldown } s = true ↔
        now + captureCooldown ≤ s) ∧
    (4 : ℤ) ≤ captureCooldown ∧ captureCooldown ≤ 10 := by
  refine ⟨?_, argminKey_mem hmin, argminKey_le hmin, ?_, ?_, by norm_num [captureCooldown],
    by norm_num [captureCooldown]⟩
  · unfold Classroom.process_teacher_movement
    rw [hscan]
    dsimp only
    rw [hmin]
    dsimp only [Except.map]
    simp only [Except.ok.injEq, Prod.mk.injEq]
    refine ⟨trivial, trivial, ?_, setCell_same _ _ _ _⟩
    by_cases hp : c.position = ns
    · rw [if_pos hp]
      have hx : c.position.x = ns.x := by rw [hp]
      have hy : c.position.y = ns.y := by rw [hp]
      rw [hx, hy, setCell_same]
    · rw [if_neg hp]
      have hne : ¬(c.position.x = ns.x ∧ c.position.y = ns.y) := by
        intro hcc
        exact hp (by cases hc' : c.position; cases hn' : ns; simp_all)
      rw [setCell_ne _ _ _ _ _ _ hne, setCell_same]
      unfold vacatedCell
      by_cases hs : cls.is_position_safe_zone c.position.x c.position.y = true
      · rw [if_pos hs, if_pos ((is_position_safe_zone_iff cls _ _).mp hs)]
      · rw [if_neg hs, if_neg (fun hm => hs ((is_position_safe_zone_iff cls _ _).mpr hm))]
  · simp only [Child.can_move, decide_eq_false_iff_not, not_le, captureCooldown]
    linarith
  · intro s
    simp only [Child.can_move, decide_eq_true_eq]

/-- Witness for C1: the spec's own example — the teacher at (5,5) is
diagonal-free adjacent to the eligible child at (5,6); the child lands on
(2,2), the nearest safe-zone cell, its old cell reverts to Empty, and its
cooldown blocks movement at time 10 and releases at time 15. -/
theorem c1_capture_protocol_witness :
    (demoCls.process_teacher_movement teachT 10).map
        (fun r => (r.2, r.1.children, r.1.grid 5 6, r.1.grid 2 2)) =
      Except.ok (teachT,
        [{ kidA with position := (⟨2, 2⟩ : Position), cooldown_until := 10 + captureCooldown }],
        CellType.EMPTY, CellType.CHILD) ∧
    Child.can_move
      { kidA with position := (⟨2, 2⟩ : Position), cooldown_until := 10 + captureCooldown } 10 = false ∧
    (Child.can_move
      { kidA with position := (⟨2, 2⟩ : Position), cooldown_until := 10 + captureCooldown } 15 = true ↔
        (10 : ℤ) + captureCooldown ≤ 15) ∧
    (4 : ℤ) ≤ captureCooldown ∧ captureCooldown ≤ 10 := by
  have h := c1_capture_protocol demoCls teachT 10 [] kidA [] ⟨2, 2⟩ (by decide) (by decide)
  refine ⟨?_, h.2.2.2.1, h.2.2.2.2.1 15, h.2.2.2.2.2⟩
  have h1 := h.1
  rw [show (if kidA.position = (⟨2, 2⟩ : Position) then CellType.CHILD
      else if (⟨kidA.position.x, kidA.position.y⟩ : Position) ∈ demoCls.safe_zone
           then CellType.SAFE_ZONE else CellType.EMPTY) = CellType.EMPTY from by decide] at h1
  exact h1

theorem vacatedCell_eq_mem (cls : Classroom) (x y : ℤ) :
    vacatedCell cls x y =
      (if (⟨x, y⟩ : Position) ∈ cls.safe_zone then CellType.SAFE_ZONE
       else CellType.EMPTY) := by
  unfold vacatedCell
  by_cases hs : cls.is_position_safe_zone x y = true
  · rw [if_pos hs, if_pos ((is_position_safe_zone_iff cls x y).mp hs)]
  · rw [if_neg hs, if_neg (fun hm => hs ((is_position_safe_zone_iff cls x y).mpr hm))]

/-- C10: the capture scan of `_process_teacher_movement` tests exactly
cooldown expiry and 8-connected adjacency — never the child's cell type —
so (first conjunct) it fires on the first child in list order satisfying
those two tests alone, and (second conjunct) when it fires, the only
child mutated is that first hit: the children list becomes the untouched
prefix, the teleported child, and the untouched suffix, with no
hypothesis whatsoever about the cell the child stands on (in particular a
child standing on a safe-zone cell is teleported like any other). -/
theorem c10_capture_ignores_cell_type :
    (∀ (t : Teacher) (now : ℤ) (kids pre : List Child) (c : Child) (post : List Child),
      captureScan t now kids = some (pre, c, post) ↔
        kids = pre ++ c :: post ∧
        (∀ k ∈ pre, ¬(k.can_move now = true ∧ t.is_adjacent_to k.position = true)) ∧
        c.can_move now = true ∧ t.is_adjacent_to c.position = true) ∧
    (∀ (cls : Classroom) (t : Teacher) (now : ℤ) (pre : List Child) (c : Child)
        (post : List Child) (ns : Position),
      captureScan t now cls.children = some (pre, c, post) →
      argminKey (fun pos => dsq c.position pos) cls.safe_zone = some ns →
      (cls.process_teacher_movement t now).map (fun r => r.1.children) =
        Except.ok
          (pre ++ { c with position := ns, cooldown_until := now + captureCooldown } :: post)) := by
  constructor
  · intro t now kids pre c post
    exact captureScan_eq_some_iff t now kids pre c post
  · intro cls t now pre c post ns hscan hmin
    unfold Classroom.process_teacher_movement
    rw [hscan]
    dsimp only
    rw [hmin]
    dsimp only [Except.map]

/-- A child standing on the safe-zone cell (2,2). -/
def safeKid : Child := { kidA with position := ⟨2, 2⟩, previous_position := ⟨2, 2⟩ }

/-- A teacher at (3,3), diagonally adjacent to (2,2). -/
def teachU : Teacher := Teacher.init ⟨3, 3⟩

/-- Grid for the safe-zone-capture scenario. -/
def demoGrid10 : ℤ → ℤ → CellType := fun x y =>
  if x = 2 ∧ y = 2 then CellType.CHILD
  else if 0 ≤ x ∧ x < 3 ∧ 0 ≤ y ∧ y < 3 then CellType.SAFE_ZONE
  else if x = 3 ∧ y = 3 then CellType.TEACHER
  else CellType.EMPTY

/-- Classroom with an eligible child standing inside the safe zone,
adjacent (diagonally) to the teacher. -/
def demoCls10 : Classroom :=
  { width := 10, height := 10, grid := demoGrid10, safe_zone := demoSafeZone,
    children := [safeKid], teachers := [teachU], teacher := none,
    last_candy_spawn := 0, candy_spawn_interval := 3 }

/-- Witness for C10: the child standing on safe-zone cell (2,2), adjacent
to the teacher at (3,3), is captured exactly like any other child (its
nearest safe-zone cell is (2,2) itself), and it is the only child
touched. -/
theorem c10_capture_ignores_cell_type_witness :
    captureScan teachU 10 demoCls10.children = some ([], safeKid, []) ∧
    demoCls10.is_position_safe_zone 2 2 = true ∧
    (demoCls10.process_teacher_movement teachU 10).map (fun r => r.1.children) =
      Except.ok
        [{ safeKid with position := (⟨2, 2⟩ : Position),
                        cooldown_until := 10 + captureCooldown }] := by
  refine ⟨?_, by decide, ?_⟩
  · exact (c10_capture_ignores_cell_type.1 teachU 10 demoCls10.children [] safeKid []).mpr
      ⟨by decide, by simp, by decide, by decide⟩
  · exact c10_capture_ignores_cell_type.2 demoCls10 teachU 10 [] safeKid [] ⟨2, 2⟩
      (by decide) (by decide)

theorem position_eq_of_coords {p q : Position} (hx : p.x = q.x) (hy : p.y = q.y) :
    p = q := by
  cases p; cases q; simp_all

/-- A far-away eligible child at (8,8). -/
def kidB : Child := { kidA with position := ⟨8, 8⟩, previous_position := ⟨8, 8⟩ }

/-- Grid for the pursuit scenario: teacher (5,5), child (8,8). -/
def demoGrid2 : ℤ → ℤ → CellType := fun x y =>
  if 0 ≤ x ∧ x < 3 ∧ 0 ≤ y ∧ y < 3 then CellType.SAFE_ZONE
  else if x = 5 ∧ y = 5 then CellType.TEACHER
  else if x = 8 ∧ y = 8 then CellType.CHILD
  else CellType.EMPTY

/-- Classroom where the teacher pursues (and moves toward) a far child. -/
def demoCls2 : Classroom :=
  { width := 10, height := 10, grid := demoGrid2, safe_zone := demoSafeZone,
    children := [kidB], teachers := [teachT], teacher := none,
    last_candy_spawn := 0, candy_spawn_interval := 3 }

/-- C3: the safe-zone revert invariant.  (1) Across a whole tick,
starting from a state where no safe-zone cell reads Empty (or Candy),
every safe-zone cell still reads non-Empty afterwards; (2) a teacher that
moves leaves its vacated cell as SafeZone when the cell belongs to the
safe-zone set and Empty otherwise; (3) a capture teleport does the same
for the captured child's vacated cell; (4) so does a child move; and (5)
the destination a child's `choose_move` produces is never its current
cell, so the vacated and destination cells are distinct. -/
theorem c3_safe_zone_revert :
    (∀ (cls cls' : Classroom) (now : ℤ) (rc : ℕ) (rk : ℕ → ℕ),
        SafeInv cls → cls.update now rc rk = Except.ok cls' →
        SafeInv cls' ∧ ∀ p ∈ cls'.safe_zone, cls'.grid p.x p.y ≠ CellType.EMPTY) ∧
    (∀ (cls : Classroom) (t : Teacher) (now : ℤ) (newPos : Position)
        (cls' : Classroom) (t' : Teacher),
        captureScan t now cls.children = none →
        t.choose_move cls now = some newPos →
        cls.process_teacher_movement t now = Except.ok (cls', t') →
        cls'.grid t.position.x t.position.y =
          (if (⟨t.position.x, t.position.y⟩ : Position) ∈ cls.safe_zone
           then CellType.SAFE_ZONE else CellType.EMPTY)) ∧
    (∀ (cls : Classroom) (t : Teacher) (now : ℤ) (pre : List Child) (c : Child)
        (post : List Child) (ns : Position) (cls' : Classroom) (t' : Teacher),
        captureScan t now cls.children = some (pre, c, post) →
        argminKey (fun pos => dsq c.position pos) cls.safe_zone = some ns →
        ns ≠ c.position →
        cls.process_teacher_movement t now = Except.ok (cls', t') →
        cls'.grid c.position.x c.position.y =
          (if (⟨c.position.x, c.position.y⟩ : Position) ∈ cls.safe_zone
           then CellType.SAFE_ZONE else CellType.EMPTY)) ∧
    (∀ (cls : Classroom) (i : ℕ) (c : Child) (p : Position), p ≠ c.position →
        (applyChildMove cls i c p).grid c.position.x c.position.y =
          (if (⟨c.position.x, c.position.y⟩ : Position) ∈ cls.safe_zone
           then CellType.SAFE_ZONE else CellType.EMPTY)) ∧
    (∀ (c : Child) (cls : Classroom) (now : ℤ) (r : ℕ) (c' : Child) (p : Position),
        c.choose_move cls now r = Except.ok (c', some p) → p ≠ c.position) := by
  refine ⟨?_, ?_, ?_, ?_, ?_⟩
  · intro cls cls' now rc rk h he
    have h' := update_safeInv h he
    exact ⟨h', fun p hp => (h' p hp).1⟩
  · intro cls t now newPos cls' t' hscan hmv he
    unfold Classroom.process_teacher_movement at he
    rw [hscan] at he
    dsimp only at he
    rw [hmv] at he
    dsimp only at he
    simp only [Except.ok.injEq, Prod.mk.injEq] at he
    rw [← he.1]
    dsimp only
    have hmem := teacher_choose_move_mem hmv
    have hne := ne_of_dsq_one (teacher_valid_moves_dsq_one t cls newPos hmem)
    have hcc : ¬(t.position.x = newPos.x ∧ t.position.y = newPos.y) := fun hcc =>
      hne (position_eq_of_coords hcc.1 hcc.2).symm
    rw [setCell_ne _ _ _ _ _ _ hcc, setCell_same, vacatedCell_eq_mem]
  · intro cls t now pre c post ns cls' t' hscan hmin hns he
    unfold Classroom.process_teacher_movement at he
    rw [hscan] at he
    dsimp only at he
    rw [hmin] at he
    dsimp only at he
    simp only [Except.ok.injEq, Prod.mk.injEq] at he
    rw [← he.1]
    dsimp only
    have hcc : ¬(c.position.x = ns.x ∧ c.position.y = ns.y) := fun hcc =>
      hns (position_eq_of_coords hcc.1 hcc.2).symm
    rw [setCell_ne _ _ _ _ _ _ hcc, setCell_same, vacatedCell_eq_mem]
  · intro cls i c p hne
    unfold applyChildMove
    dsimp only
    have hcc : ¬(c.position.x = p.x ∧ c.position.y = p.y) := fun hcc =>
      hne (position_eq_of_coords hcc.1 hcc.2).symm
    rw [setCell_ne _ _ _ _ _ _ hcc, setCell_same, vacatedCell_eq_mem]
  · intro c cls now r c' p h
    exact ne_of_dsq_one (child_valid_moves_dsq_one c cls p (choose_move_mem h))

/-- Witness for C3: a full tick on the capture scenario keeps the
safe-zone invariant; the pursuing teacher's vacated cell (5,5), the
captured child's vacated cell (5,6), and a moving child's vacated cell
all revert to Empty (none of them safe-zone cells); and a concrete
`choose_move` result differs from the child's current cell. -/
instance {ε α : Type} [DecidableEq ε] [DecidableEq α] : DecidableEq (Except ε α)
  | Except.ok a, Except.ok b =>
      if h : a = b then Decidable.isTrue (by rw [h])
      else Decidable.isFalse (by simp [h])
  | Except.ok _, Except.error _ => Decidable.isFalse (by simp)
  | Except.error _, Except.ok _ => Decidable.isFalse (by simp)
  | Except.error e, Except.error f =>
      if h : e = f then Decidable.isTrue (by rw [h])
      else Decidable.isFalse (by simp [h])

theorem c3_safe_zone_revert_witness :
    (demoCls.update 10 0 (fun _ => 0)).map (fun cl => decide (SafeInv cl)) =
      Except.ok true ∧
    (demoCls2.process_teacher_movement teachT 10).map
        (fun r => r.1.grid teachT.position.x teachT.position.y) =
      Except.ok CellType.EMPTY ∧
    (demoCls.process_teacher_movement teachT 10).map
        (fun r => r.1.grid kidA.position.x kidA.position.y) =
      Except.ok CellType.EMPTY ∧
    (applyChildMove demoCls 0 kidA ⟨5, 7⟩).grid kidA.position.x kidA.position.y =
      CellType.EMPTY ∧
    (⟨5, 7⟩ : Position) ≠ kidA.position := by
  refine ⟨?_, ?_, ?_, ?_, ?_⟩
  · cases hres : demoCls.update 10 0 (fun _ => 0) with
    | error e =>
        have hok : (demoCls.update 10 0 (fun _ => 0)).isOk = true := by decide
        rw [hres] at hok
        exact Bool.noConfusion hok
    | ok cl =>
        dsimp only [Except.map]
        have hs := (c3_safe_zone_revert.1 demoCls cl 10 0 (fun _ => 0) (by decide) hres).1
        rw [decide_eq_true hs]
  · cases hres : demoCls2.process_teacher_movement teachT 10 with
    | error e =>
        have hok : (demoCls2.process_teacher_movement teachT 10).isOk = true := by decide
        rw [hres] at hok
        exact Bool.noConfusion hok
    | ok rt =>
        obtain ⟨cl, tt⟩ := rt
        dsimp only [Except.map]
        have h2 := c3_safe_zone_revert.2.1 demoCls2 teachT 10 ⟨5, 6⟩ cl tt
          (by decide) (by decide) hres
        rw [h2, if_neg (by decide)]
  · cases hres : demoCls.process_teacher_movement teachT 10 with
    | error e =>
        have hok : (demoCls.process_teacher_movement teachT 10).isOk = true := by decide
        rw [hres] at hok
        exact Bool.noConfusion hok
    | ok rt =>
        obtain ⟨cl, tt⟩ := rt
        dsimp only [Except.map]
        have h3 := c3_safe_zone_revert.2.2.1 demoCls teachT 10 [] kidA [] ⟨2, 2⟩ cl tt
          (by decide) (by decide) (by decide) hres
        rw [h3, if_neg (by decide)]
  · have h4 := c3_safe_zone_revert.2.2.2.1 demoCls 0 kidA ⟨5, 7⟩ (by decide)
    rw [h4, if_neg (by decide)]
  · exact c3_safe_zone_revert.2.2.2.2 kidA demoCls 10 0
      { kidA with last_move_time := 10 } ⟨5, 7⟩ (by decide)

/-! ### Counting candies -/

theorem countP_le_succ_of_agree_except {α : Type} :
    ∀ (l : List α) (p q : α → Bool) (c : α), l.Nodup →
      (∀ a ∈ l, a ≠ c → q a = p a) → l.countP q ≤ l.countP p + 1 := by
  intro l
  induction l with
  | nil => intro p q c _ _; simp
  | cons a tl ih =>
      intro p q c hnd h
      rw [List.countP_cons, List.countP_cons]
      rcases List.nodup_cons.mp hnd with ⟨hnotin, hndtl⟩
      by_cases hac : a = c
      · subst hac
        have hagree : tl.countP q = tl.countP p := by
          apply List.countP_congr
          intro b hb
          rw [h b (List.mem_cons_of_mem a hb) (fun hbc => hnotin (hbc ▸ hb))]
        have h1 : (if q a then 1 else 0) ≤ 1 := by split <;> omega
        have h0 : 0 ≤ (if p a then 1 else 0) := by split <;> omega
        omega
      · have hqa : q a = p a := h a (List.mem_cons_self a tl) hac
        rw [hqa]
        have := ih p q c hndtl (fun b hb hbc => h b (List.mem_cons_of_mem a hb) hbc)
        omega

theorem gridCoords_nodup (w h : ℤ) : (gridCoords w h).Nodup := by
  unfold gridCoords
  rw [List.nodup_flatMap]
  constructor
  · intro y _
    refine List.Nodup.map ?_ (List.nodup_range _)
    intro a b hab
    simpa using congrArg Prod.fst hab
  · refine List.Pairwise.imp ?_ (List.pairwise_lt_range _)
    intro y y' hyy
    intro xy hxy hxy'
    simp only [List.mem_map, List.mem_range] at hxy hxy'
    obtain ⟨x1, -, he1⟩ := hxy
    obtain ⟨x2, -, he2⟩ := hxy'
    have h1 : Int.ofNat y = Int.ofNat y' := by
      have e1 := congrArg Prod.snd he1
      have e2 := congrArg Prod.snd he2
      simp_all
    have : y = y' := Int.ofNat.inj h1
    omega

/-- C4: `spawn_candy` places a candy (the drawn Empty cell becomes Candy
and `last_candy_spawn` resets to `now`) only when the interval has
elapsed AND the count is below the cap of 5; if either gate fails the
classroom is returned entirely unchanged; and the number of Candy cells
never exceeds the cap. -/
theorem c4_candy_spawn (cls : Classroom) (now : ℤ) (r : ℕ) :
    ((maxCandies ≤ candyCount cls ∨
        now - cls.last_candy_spawn < cls.candy_spawn_interval) →
      cls.spawn_candy now r = cls) ∧
    (candyCount cls ≤ maxCandies → candyCount (cls.spawn_candy now r) ≤ maxCandies) ∧
    (∀ xy : ℤ × ℤ, candyCount cls < maxCandies →
      cls.candy_spawn_interval ≤ now - cls.last_candy_spawn →
      randomChoice r (availablePositions cls) = some xy →
      xy ∈ availablePositions cls ∧
      cls.grid xy.1 xy.2 = CellType.EMPTY ∧
      (cls.spawn_candy now r).grid xy.1 xy.2 = CellType.CANDY ∧
      (cls.spawn_candy now r).last_candy_spawn = now) := by
  refine ⟨?_, ?_, ?_⟩
  · intro hdis
    unfold Classroom.spawn_candy
    by_cases h1 : maxCandies ≤ candyCount cls
    · rw [if_pos h1]
    · rcases hdis with h | h
      · exact absurd h h1
      · rw [if_neg h1, if_pos h]
  · intro hle
    unfold Classroom.spawn_candy
    split
    · exact hle
    · rename_i hcap
      split
      · exact hle
      · split
        · exact hle
        · rename_i xy heq
          have hb := countP_le_succ_of_agree_except (gridCoords cls.width cls.height)
            (fun ab => decide (cls.grid ab.1 ab.2 = CellType.CANDY))
            (fun ab => decide (setCell cls.grid xy.1 xy.2 CellType.CANDY ab.1 ab.2 = CellType.CANDY))
            xy (gridCoords_nodup _ _) ?_
          · unfold candyCount maxCandies at hle hcap ⊢
            dsimp only
            omega
          · intro ab _ hab
            have hne : ¬(ab.1 = xy.1 ∧ ab.2 = xy.2) := by
              intro hcc
              exact hab (by cases ab; cases xy; simp_all)
            dsimp only
            rw [setCell_ne _ _ _ _ _ _ hne]
  · intro xy hcnt hint heq
    have hmem := randomChoice_mem heq
    have hempty : cls.grid xy.1 xy.2 = CellType.EMPTY := by
      have h2 := hmem
      unfold availablePositions at h2
      rw [List.mem_filter] at h2
      exact of_decide_eq_true h2.2
    refine ⟨hmem, hempty, ?_, ?_⟩
    · unfold Classroom.spawn_candy
      rw [if_neg (by unfold maxCandies at hcnt ⊢; omega),
        if_neg (not_lt.mpr hint), heq]
      exact setCell_same _ _ _ _
    · unfold Classroom.spawn_candy
      rw [if_neg (by unfold maxCandies at hcnt ⊢; omega),
        if_neg (not_lt.mpr hint), heq]

/-- Witness for C4: on the demo classroom, spawning before the interval
has elapsed returns the classroom unchanged; after the interval the first
empty cell drawn, (3,0), becomes Candy with the timestamp reset; and the
count stays within the cap. -/
theorem c4_candy_spawn_witness :
    demoCls.spawn_candy 0 5 = demoCls ∧
    candyCount (demoCls.spawn_candy 10 0) ≤ maxCandies ∧
    ((3, 0) : ℤ × ℤ) ∈ availablePositions demoCls ∧
    (demoCls.spawn_candy 10 0).grid 3 0 = CellType.CANDY ∧
    (demoCls.spawn_candy 10 0).last_candy_spawn = 10 := by
  have h0 := (c4_candy_spawn demoCls 0 5).1 (Or.inr (by decide))
  have h1 := (c4_candy_spawn demoCls 10 0).2.1 (by decide)
  have h2 := (c4_candy_spawn demoCls 10 0).2.2 (3, 0) (by decide) (by decide) (by decide)
  exact ⟨h0, h1, h2.1, h2.2.2.1, h2.2.2.2⟩

/-! ### C5: the valid-move sets -/

/-- A lone child for the no-valid-move scenario. -/
def soloKid : Child := { kidA with position := ⟨0, 0⟩, previous_position := ⟨0, 0⟩ }

/-- A lone teacher for the no-valid-move scenario. -/
def soloTeach : Teacher := Teacher.init ⟨0, 0⟩

/-- A 1×1 classroom: no agent has any valid move. -/
def tinyCls : Classroom :=
  { width := 1, height := 1, grid := fun _ _ => CellType.EMPTY,
    safe_zone := [], children := [soloKid], teachers := [soloTeach],
    teacher := none, last_candy_spawn := 0, candy_spawn_interval := 3 }

/-- C5: a candidate destination is valid exactly when it is a cardinal
neighbor of the agent (never diagonal, never the current cell), lies in
`[0,width) × [0,height)`, and its cell is in the allowed set — Empty or
Candy for children, Empty only for teachers; every valid move is at
squared Euclidean distance exactly 1 (so Euclidean distance 1.0) and
differs from the current cell; and with no valid move both engines
report "no move" (`none`) rather than an error. -/
theorem c5_valid_moves (c : Child) (t : Teacher) (cls : Classroom)
    (now : ℤ) (r : ℕ) :
    (∀ p : Position, p ∈ c.get_valid_moves cls ↔
        (∃ d ∈ cardinalDirs, p.x = c.position.x + d.1 ∧ p.y = c.position.y + d.2) ∧
        (0 ≤ p.x ∧ p.x < cls.width ∧ 0 ≤ p.y ∧ p.y < cls.height) ∧
        (cls.grid p.x p.y = CellType.EMPTY ∨ cls.grid p.x p.y = CellType.CANDY)) ∧
    (∀ p : Position, p ∈ t.get_valid_moves cls ↔
        (∃ d ∈ cardinalDirs, p.x = t.position.x + d.1 ∧ p.y = t.position.y + d.2) ∧
        (0 ≤ p.x ∧ p.x < cls.width ∧ 0 ≤ p.y ∧ p.y < cls.height) ∧
        cls.grid p.x p.y = CellType.EMPTY) ∧
    (∀ p ∈ c.get_valid_moves cls, dsq c.position p = 1 ∧ p ≠ c.position) ∧
    (∀ p ∈ t.get_valid_moves cls, dsq t.position p = 1 ∧ p ≠ t.position) ∧
    (c.get_valid_moves cls = [] → c.choose_move cls now r = Except.ok (c, none)) ∧
    (t.get_valid_moves cls = [] → t.choose_move cls now = none) := by
  refine ⟨mem_child_get_valid_moves c cls, mem_teacher_get_valid_moves t cls,
    ?_, ?_, ?_, ?_⟩
  · intro p hp
    have h1 := child_valid_moves_dsq_one c cls p hp
    exact ⟨h1, ne_of_dsq_one h1⟩
  · intro p hp
    have h1 := teacher_valid_moves_dsq_one t cls p hp
    exact ⟨h1, ne_of_dsq_one h1⟩
  · intro hemp
    unfold Child.choose_move
    split
    · rfl
    · split
      · rfl
      · dsimp only
        rw [hemp]
        simp
  · intro hemp
    unfold Teacher.choose_move
    split
    · rfl
    · split
      · rfl
      · rw [hemp]
        rfl

/-- Witness for C5: (5,7) is a valid child move in the demo classroom at
distance² 1; (5,6) is a valid teacher move in the pursuit classroom; and
on the 1×1 classroom both engines report "no move". -/
theorem c5_valid_moves_witness :
    (⟨5, 7⟩ : Position) ∈ kidA.get_valid_moves demoCls ∧
    dsq kidA.position ⟨5, 7⟩ = 1 ∧
    (⟨5, 6⟩ : Position) ∈ teachT.get_valid_moves demoCls2 ∧
    soloKid.choose_move tinyCls 10 0 = Except.ok (soloKid, none) ∧
    soloTeach.choose_move tinyCls 10 = none := by
  have h := c5_valid_moves kidA teachT demoCls 10 0
  have h2 := c5_valid_moves kidA teachT demoCls2 10 0
  have h3 := c5_valid_moves soloKid soloTeach tinyCls 10 0
  have hm : (⟨5, 7⟩ : Position) ∈ kidA.get_valid_moves demoCls :=
    (h.1 ⟨5, 7⟩).mpr (by decide)
  refine ⟨hm, (h.2.2.1 ⟨5, 7⟩ hm).1, (h2.2.1 ⟨5, 6⟩).mpr (by decide),
    h3.2.2.2.2.1 (by decide), h3.2.2.2.2.2 (by decide)⟩

/-! ### C2: the WallHugger strategy is dead code -/

/-- A WallHugger child at (5,5). -/
def wallKid : Child :=
  { kidA with
      position := ⟨5, 5⟩
      previous_position := ⟨5, 5⟩
      strategy := MovementStrategy.WALL_HUGGER }

/-- Grid with only the WallHugger child (and the safe zone). -/
def demoGridW : ℤ → ℤ → CellType := fun x y =>
  if 0 ≤ x ∧ x < 3 ∧ 0 ≤ y ∧ y < 3 then CellType.SAFE_ZONE
  else if x = 5 ∧ y = 5 then CellType.CHILD
  else CellType.EMPTY

/-- Classroom for the WallHugger scenario. -/
def demoClsW : Classroom :=
  { width := 10, height := 10, grid := demoGridW, safe_zone := demoSafeZone,
    children := [wallKid], teachers := [], teacher := none,
    last_candy_spawn := 0, candy_spawn_interval := 3 }

/-- C2 (code evaluation at the failing input): the second, effective
definition of `choose_move` has no `WALL_HUGGER` branch, so the eligible
WallHugger child at (5,5) with all four neighbors valid gets the plain
random draw — here draw 2 yields (5,4), whose wall proximity 4 is
strictly worse than the proximity 3 of the valid move (5,6) that the
shadowed `_find_wall_hugging_move` would have picked.  The spec's
minimization is therefore not what the code computes. -/
theorem c2_wallhugger_random_eval :
    wallKid.choose_move demoClsW 10 2 =
      Except.ok ({ wallKid with last_move_time := 10 }, some ⟨5, 4⟩) ∧
    Child.find_wall_hugging_move demoClsW (wallKid.get_valid_moves demoClsW) =
      some ⟨5, 6⟩ ∧
    wallProximity demoClsW ⟨5, 6⟩ < wallProximity demoClsW ⟨5, 4⟩ ∧
    (⟨5, 6⟩ : Position) ∈ wallKid.get_valid_moves demoClsW := by decide

/-! ### C6: the Avoidance strategy -/

/-- An Avoidance child at (5,5). -/
def avKid : Child :=
  { kidA with
      position := ⟨5, 5⟩
      previous_position := ⟨5, 5⟩
      strategy := MovementStrategy.AVOIDANCE }

/-- A teacher at (9,9), held in the `teachers` list. -/
def teachV : Teacher := Teacher.init ⟨9, 9⟩

/-- Grid for the Avoidance counterexample. -/
def avGrid : ℤ → ℤ → CellType := fun x y =>
  if 0 ≤ x ∧ x < 3 ∧ 0 ≤ y ∧ y < 3 then CellType.SAFE_ZONE
  else if x = 5 ∧ y = 5 then CellType.CHILD
  else if x = 9 ∧ y = 9 then CellType.TEACHER
  else CellType.EMPTY

/-- Classroom as `Classroom.__init__` plus `teachers.append(...)` leaves
it: the `teachers` list holds one teacher, the `teacher` attribute was
never assigned. -/
def avCls : Classroom :=
  { width := 10, height := 10, grid := avGrid, safe_zone := demoSafeZone,
    children := [avKid], teachers := [teachV], teacher := none,
    last_candy_spawn := 0, candy_spawn_interval := 3 }

/-- Counterexample to C6: an Avoidance child with valid moves, in a
classroom whose `teachers` list holds exactly one teacher (as built by
`Classroom.__init__` and population), does not get any danger-minimizing
move — `_find_safest_move` reads the never-assigned `classroom.teacher`
attribute and the call raises `AttributeError`.  No Σ 1/(d+1) danger
score over `classroom.teachers` is computed anywhere. -/
theorem c6_danger_score_counterexample :
    avCls.teachers = [teachV] ∧
    avKid.strategy = MovementStrategy.AVOIDANCE ∧
    (avKid.get_valid_moves avCls).isEmpty = false ∧
    avKid.choose_move avCls 10 0 =
      Except.error "AttributeError: Classroom has no attribute teacher" := by decide

/-- C6 as amended: when the separate `classroom.teacher` attribute HAS
been assigned a teacher (as `main.py` does), an eligible Avoidance child
with at least one valid move receives the valid move maximizing the
Euclidean distance to that single teacher (the first such move in
neighbor order) — equivalently minimizing 1/(distance+1) for that one
teacher; the `teachers` list plays no part.  Consequently whenever some
valid move does not decrease the distance to that teacher, neither does
the chosen one. -/
theorem c6_avoidance_amended (c : Child) (cls : Classroom) (now : ℤ) (r : ℕ)
    (tch : Teacher) (m : Position)
    (ht : cls.teacher = some (some tch))
    (hs : c.strategy = MovementStrategy.AVOIDANCE)
    (hc : c.can_move now = true)
    (hbest : argmaxKey (fun pos => dsq pos tch.position)
      (c.get_valid_moves cls) = some m) :
    (c.choose_move cls now r).map (fun x => x.2) = Except.ok (some m) ∧
    m ∈ c.get_valid_moves cls ∧
    (∀ q ∈ c.get_valid_moves cls, dsq q tch.position ≤ dsq m tch.position) ∧
    ((∃ q ∈ c.get_valid_moves cls,
        dsq c.position tch.position ≤ dsq q tch.position) →
      dsq c.position tch.position ≤ dsq m tch.position) := by
  have hmem := argmaxKey_mem hbest
  have hge := argmaxKey_ge hbest
  have hne : c.get_valid_moves cls ≠ [] := by
    intro h0
    rw [h0] at hbest
    exact absurd hbest (by simp [argmaxKey, argminKey])
  refine ⟨?_, hmem, hge, ?_⟩
  · unfold Child.choose_move
    rw [hs]
    rw [if_neg (not_not_intro hc)]
    rw [if_neg (by rintro ⟨h1, -⟩; exact absurd h1 (by decide))]
    dsimp only
    rw [if_neg (fun hE => hne (List.isEmpty_iff.mp hE))]
    rw [if_neg (by decide), if_pos rfl]
    unfold Child.find_safest_move
    rw [if_neg (fun hE => hne (List.isEmpty_iff.mp hE))]
    rw [ht]
    dsimp only
    rw [hbest]
    rfl
  · rintro ⟨q, hq, hqd⟩
    exact le_trans hqd (hge q hq)

/-- The spec's example teacher at (4,4), assigned to the `teacher`
attribute. -/
def teachV2 : Teacher := Teacher.init ⟨4, 4⟩

/-- An Avoidance child at (2,2). -/
def avKid2 : Child :=
  { kidA with
      position := ⟨2, 2⟩
      previous_position := ⟨2, 2⟩
      strategy := MovementStrategy.AVOIDANCE }

/-- Grid for the amended-C6 witness: 1×1 safe zone so all four neighbors
of (2,2) are free. -/
def avGrid2 : ℤ → ℤ → CellType := fun x y =>
  if x = 0 ∧ y = 0 then CellType.SAFE_ZONE
  else if x = 2 ∧ y = 2 then CellType.CHILD
  else if x = 4 ∧ y = 4 then CellType.TEACHER
  else CellType.EMPTY

/-- Classroom with the teacher attribute assigned, as `main.py` leaves
it. -/
def avCls2 : Classroom :=
  { width := 10, height := 10, grid := avGrid2, safe_zone := [⟨0, 0⟩],
    children := [avKid2], teachers := [teachV2], teacher := some (some teachV2),
    last_candy_spawn := 0, candy_spawn_interval := 3 }

/-- Witness for the amended C6: the child at (2,2) facing the teacher at
(4,4) with all four neighbors valid moves to (2,1), which maximizes the
distance to (4,4) and does not decrease it relative to (2,2). -/
theorem c6_avoidance_amended_witness :
    (avKid2.choose_move avCls2 10 0).map (fun x => x.2) =
      Except.ok (some ⟨2, 1⟩) ∧
    (⟨2, 1⟩ : Position) ∈ avKid2.get_valid_moves avCls2 ∧
    dsq avKid2.position teachV2.position ≤
      dsq (⟨2, 1⟩ : Position) teachV2.position := by
  have h := c6_avoidance_amended avKid2 avCls2 10 0 teachV2 ⟨2, 1⟩
    (by decide) (by decide) (by decide) (by decide)
  exact ⟨h.1, h.2.1, h.2.2.2 ⟨⟨2, 1⟩, by decide, by decide⟩⟩

/-! ### C7: teachers own no patrol rectangle -/

/-- Grid with only the teacher at (5,5). -/
def patrolGrid : ℤ → ℤ → CellType := fun x y =>
  if 0 ≤ x ∧ x < 3 ∧ 0 ≤ y ∧ y < 3 then CellType.SAFE_ZONE
  else if x = 5 ∧ y = 5 then CellType.TEACHER
  else CellType.EMPTY

/-- Classroom with no children at all. -/
def patrolCls : Classroom :=
  { width := 10, height := 10, grid := patrolGrid, safe_zone := demoSafeZone,
    children := [], teachers := [teachT], teacher := none,
    last_candy_spawn := 0, candy_spawn_interval := 3 }

/-- C7 (code evaluation): `Teacher.__init__` stores only a position, a
previous position and the strategy-priority list — no patrol rectangle of
any kind — and with no candidate children the teacher computes no move at
all (its processing step leaves it exactly where it was), instead of
patrolling toward any rectangle's center. -/
theorem c7_no_patrol_eval :
    Teacher.init ⟨5, 5⟩ =
      { position := ⟨5, 5⟩, previous_position := ⟨5, 5⟩,
        strategy_priority := teacherStrategyPriority } ∧
    teachT.choose_move patrolCls 10 = none ∧
    (patrolCls.process_teacher_movement teachT 10).map
        (fun r => (r.2.position, r.2.previous_position)) =
      Except.ok ((⟨5, 5⟩ : Position), (⟨5, 5⟩ : Position)) := by decide

/-! ### C8: candy collection -/

/-- A CandySeeker child at (5,5). -/
def candyKid : Child :=
  { kidA with
      position := ⟨5, 5⟩
      previous_position := ⟨5, 5⟩
      strategy := MovementStrategy.CANDY_SEEKER }

/-- Grid with a candy at (5,6) next to the child at (5,5). -/
def candyGrid : ℤ → ℤ → CellType := fun x y =>
  if 0 ≤ x ∧ x < 3 ∧ 0 ≤ y ∧ y < 3 then CellType.SAFE_ZONE
  else if x = 5 ∧ y = 5 then CellType.CHILD
  else if x = 5 ∧ y = 6 then CellType.CANDY
  else CellType.EMPTY

/-- Classroom for the collection tick (spawn interval not yet elapsed,
so the tick's only effect is the child's move). -/
def candyCls : Classroom :=
  { width := 10, height := 10, grid := candyGrid, safe_zone := demoSafeZone,
    children := [candyKid], teachers := [], teacher := none,
    last_candy_spawn := 10, candy_spawn_interval := 3 }

/-- C8 (code evaluation at the failing input): during the child pass the
CandySeeker steps onto the candy cell (5,6); the cell's Candy is removed
(it becomes Empty and then ChildOccupied), the vacated cell (5,5) reverts
to Empty, and the child's position/previous-position update — and that is
the child's entire post-tick state: `Child` owns no collected-items
counter that could be incremented (`pygame_visualizer.py` nonetheless
reads `child.candys_eaten`). -/
theorem c8_candy_collection_eval :
    (candyCls.update 10 0 (fun _ => 0)).map
        (fun cl => (cl.grid 5 6, cl.grid 5 5,
          cl.children.map (fun k => (k.position, k.previous_position)))) =
      Except.ok (CellType.CHILD, CellType.EMPTY,
        [((⟨5, 6⟩ : Position), (⟨5, 5⟩ : Position))]) := by decide

/-! ### C9: construction of the classroom -/

/-- One write of `_initialize_safe_zone`'s loop: `grid[y][x] =
SAFE_ZONE; positions.append(Position(x,y))`, failing with numpy's
`IndexError` when the index is outside the `(height, width)` array. -/
def szStep (w h : ℤ) (s : (ℤ → ℤ → CellType) × List Position) (xy : ℤ × ℤ) :
    Except String ((ℤ → ℤ → CellType) × List Position) :=
  if xy.1 < w ∧ xy.2 < h then
    Except.ok (setCell s.1 xy.1 xy.2 CellType.SAFE_ZONE, s.2 ++ [⟨xy.1, xy.2⟩])
  else Except.error "IndexError: index out of bounds"

/-- `Classroom._initialize_safe_zone`: for y in range(size[1]), for x in
range(size[0]), write the cell and record the position. -/
def initialize_safe_zone (w h s0 s1 : ℤ) (g : ℤ → ℤ → CellType) :
    Except String ((ℤ → ℤ → CellType) × List Position) :=
  exceptFold (szStep w h) (g, []) (gridCoords s0 s1)

/-- `createClassroom(width, height, safeZoneSize)` =
`Classroom.__init__`: `np.full((height, width), EMPTY)` raises
`ValueError` on negative dimensions (zero-sized arrays are fine), then
the safe zone is initialized; no other validation exists. -/
def createClassroom (now width height : ℤ) (safe_zone_size : ℤ × ℤ) :
    Except String Classroom :=
  if width < 0 ∨ height < 0 then
    Except.error "ValueError: negative dimensions are not allowed"
  else
    match initialize_safe_zone width height safe_zone_size.1 safe_zone_size.2
        (fun _ _ => CellType.EMPTY) with
    | Except.error e => Except.error e
    | Except.ok gz =>
        Except.ok
          { width := width, height := height, grid := gz.1, safe_zone := gz.2,
            children := [], teachers := [], teacher := none,
            last_candy_spawn := now, candy_spawn_interval := 3 }

theorem szFold_isOk (w h : ℤ) :
    ∀ (l : List (ℤ × ℤ)) (s : (ℤ → ℤ → CellType) × List Position),
      (exceptFold (szStep w h) s l).isOk = true ↔
        ∀ xy ∈ l, xy.1 < w ∧ xy.2 < h := by
  intro l
  induction l with
  | nil =>
      intro s
      constructor
      · intro _ xy hxy
        exact absurd hxy (List.not_mem_nil xy)
      · intro _
        rfl
  | cons a tl ih =>
      intro s
      unfold exceptFold
      cases hstep : szStep w h s a with
      | error e =>
          have hcond : ¬(a.1 < w ∧ a.2 < h) := by
            intro hc
            unfold szStep at hstep
            rw [if_pos hc] at hstep
            exact absurd hstep (by simp)
          constructor
          · intro hf
            exact Bool.noConfusion hf
          · intro hall
            exact absurd (hall a (List.mem_cons_self a tl)) hcond
      | ok s' =>
          have hcond : a.1 < w ∧ a.2 < h := by
            by_contra hc
            unfold szStep at hstep
            rw [if_neg hc] at hstep
            exact absurd hstep (by simp)
          dsimp only
          rw [ih s']
          constructor
          · intro hall xy hxy
            rcases List.mem_cons.mp hxy with rfl | hxy
            · exact hcond
            · exact hall xy hxy
          · intro hall xy hxy
            exact hall xy (List.mem_cons_of_mem a hxy)

theorem mem_gridCoords (s0 s1 : ℤ) (xy : ℤ × ℤ) :
    xy ∈ gridCoords s0 s1 ↔
      0 ≤ xy.1 ∧ xy.1 < s0 ∧ 0 ≤ xy.2 ∧ xy.2 < s1 := by
  unfold gridCoords
  simp only [List.mem_flatMap, List.mem_map, List.mem_range]
  constructor
  · rintro ⟨y, hy, x, hx, rfl⟩
    dsimp only
    simp only [Int.ofNat_eq_coe]
    omega
  · rintro ⟨h1, h2, h3, h4⟩
    refine ⟨xy.2.toNat, by omega, xy.1.toNat, by omega, ?_⟩
    obtain ⟨a, b⟩ := xy
    dsimp only at h1 h2 h3 h4 ⊢
    rw [show Int.ofNat a.toNat = a from by simp only [Int.ofNat_eq_coe]; omega,
      show Int.ofNat b.toNat = b from by simp only [Int.ofNat_eq_coe]; omega]

theorem initialize_isOk (w h s0 s1 : ℤ) (g : ℤ → ℤ → CellType) :
    (initialize_safe_zone w h s0 s1 g).isOk = true ↔
      ¬(0 < s0 ∧ 0 < s1 ∧ (w < s0 ∨ h < s1)) := by
  unfold initialize_safe_zone
  rw [szFold_isOk]
  constructor
  · intro hall hbad
    obtain ⟨hs0, hs1, hwh⟩ := hbad
    rcases hwh with hw | hh
    · have hmem := (mem_gridCoords s0 s1 (s0 - 1, 0)).mpr
        ⟨by omega, by omega, by omega, by omega⟩
      have := (hall _ hmem).1
      dsimp only at this
      omega
    · have hmem := (mem_gridCoords s0 s1 (0, s1 - 1)).mpr
        ⟨by omega, by omega, by omega, by omega⟩
      have := (hall _ hmem).2
      dsimp only at this
      omega
  · intro hnb xy hxy
    rw [mem_gridCoords] at hxy
    omega

/-- C9 as amended: `createClassroom` rejects geometry only incidentally —
it fails exactly when a dimension is negative (numpy's `ValueError`) or
the safe zone is non-empty (both sides positive) and wider or taller than
the grid (numpy's `IndexError` during `_initialize_safe_zone`).  In
particular zero (non-positive) dimensions, and safe zones with a zero
side no matter how large the other side, are accepted and produce a
classroom object. -/
theorem c9_construction_characterization (now width height s0 s1 : ℤ) :
    (createClassroom now width height (s0, s1)).isOk = false ↔
      width < 0 ∨ height < 0 ∨
        (0 < s0 ∧ 0 < s1 ∧ (width < s0 ∨ height < s1)) := by
  unfold createClassroom
  by_cases hneg : width < 0 ∨ height < 0
  · rw [if_pos hneg]
    constructor
    · intro _
      exact hneg.elim Or.inl (fun hhh => Or.inr (Or.inl hhh))
    · intro _
      rfl
  · rw [if_neg hneg]
    have hiff := initialize_isOk width height s0 s1 (fun _ _ => CellType.EMPTY)
    cases hinit : initialize_safe_zone width height s0 s1
        (fun _ _ => CellType.EMPTY) with
    | error e =>
        rw [hinit] at hiff
        dsimp only
        have hbad : 0 < s0 ∧ 0 < s1 ∧ (width < s0 ∨ height < s1) := by
          by_contra hc
          exact Bool.noConfusion (hiff.mpr hc)
        constructor
        · intro _
          exact Or.inr (Or.inr hbad)
        · intro _
          rfl
    | ok gz =>
        rw [hinit] at hiff
        dsimp only
        have hok := hiff.mp rfl
        constructor
        · intro hfalse
          exact Bool.noConfusion hfalse
        · intro hrhs
          rcases hrhs with hhh | hhh | hhh
          · exact absurd (Or.inl hhh) hneg
          · exact absurd (Or.inr hhh) hneg
          · exact absurd hhh hok

/-- Counterexample to C9 as stated: a construction call with both
dimensions zero — non-positive — succeeds and yields a classroom object
instead of being rejected. -/
theorem c9_zero_dims_accepted :
    (createClassroom 0 0 0 (0, 0)).isOk = true ∧ ¬((0 : ℤ) > 0) := by decide

end Sim
